import Mathlib

/-!
Shallow embedding of src/sample-python-scripts/bag_validate_upload_linux.py.

The script sets two environment variables and then loops over a fixed list of
jobs; for each job it builds three shell command strings (bag create, bag
validate, s3 upload), runs each with subprocess.run, and prints a status line
depending on the return code.  We model a run as the list of observable
events (environment assignments, subprocess invocations, printed lines),
parameterised by an oracle `rc : Nat → Int` giving the return code of the
n-th subprocess call of the run.
-/

namespace BagValidateUpload

/-- A job descriptor from the script's `jobs` list (lines 29-33). -/
structure Job where
  source_dir : String
  title_val : String
  access_val : String
  deriving DecidableEq, Repr

/-- Line 9: name of the receiving bucket. -/
def bucket_name : String := "aptrust.receiving.test.acr7d.edu"

/-- Line 12. -/
def aws_access_key : String := ""

/-- Line 13. -/
def aws_secret_key : String := ""

/-- Line 15. -/
def output_dir : String := "/home/emory/aptrust/testing_files/testing_output"

/-- Line 18: bag profile used when creating. -/
def profile : String := "aptrust"

/-- Line 21: initial value of `manifest_algs` before line 38 rebinds it. -/
def manifest_algs_cfg : String := "md5,sha256"

/-- Line 24: initial value of `source_organization` before line 39 rebinds it. -/
def source_organization_cfg : String := "College"

/-- Line 27: initial value of `storage_option` before line 41 rebinds it. -/
def storage_option_cfg : String := "Standard"

/-- Lines 29-33: the hardcoded jobs list. -/
def jobs : List Job :=
  [⟨"/home/emory/aptrust/testing_files/testing_input/test_bag_1", "Bag 1", "Institution"⟩,
   ⟨"/home/emory/aptrust/testing_files/testing_input/test_bag_2", "Bag 2", "Consortia"⟩,
   ⟨"/home/emory/aptrust/testing_files/testing_input/test_bag_3", "Bag 2", "Consortia"⟩]

/-- Line 37. -/
def profile_full : String := " --profile=" ++ profile

/-- Line 38 (the rebound value of `manifest_algs`). -/
def manifest_algs : String := " --manifest-algs=" ++ manifest_algs_cfg

/-- Line 39 (the rebound value of `source_organization`). -/
def source_organization : String :=
  " --tags='bag-info.txt/Source-Organization=" ++ source_organization_cfg ++ "'"

/-- Line 40. -/
def output_file : String := " --output-file=" ++ output_dir ++ "/"

/-- Line 41 (the rebound value of `storage_option`). -/
def storage_option : String :=
  " --tags='aptrust-info.txt/Storage-Option=" ++ storage_option_cfg ++ "'"

/-- Python `str.find` restricted to a one-character needle, on the character
list of a string: the index of the first occurrence, or -1. -/
def pyFind (s : List Char) (c : Char) : Int :=
  match s.findIdx? (fun a => a = c) with
  | some i => (i : Int)
  | none => -1

/-- Python slice `s[i:]` with a possibly negative start index: a negative
start counts from the end and is clamped at 0 (note `-0` is `0`, so a start
of `-0` keeps the whole string). -/
def pySliceFrom (s : List Char) (i : Int) : List Char :=
  if i < 0 then s.drop ((s.length + i).toNat) else s.drop i.toNat

/-- Lines 50-51:
`index_slash = source_dir[::-1].find('/')` and
`bag_name = source_dir[-index_slash::]`. -/
def bag_name (source_dir : String) : String :=
  let index_slash := pyFind source_dir.data.reverse '/'
  ⟨pySliceFrom source_dir.data (-index_slash)⟩

/-- Line 47: the per-job Title tag flag. -/
def title (bag : Job) : String :=
  " --tags='aptrust-info.txt/Title=" ++ bag.title_val ++ "'"

/-- Line 48: the per-job Access tag flag. -/
def access (bag : Job) : String :=
  " --tags='aptrust-info.txt/Access=" ++ bag.access_val ++ "'"

/-- Line 49: the per-job bag-dir flag. -/
def bag_dir (bag : Job) : String := " --bag-dir=" ++ bag.source_dir

/-- Line 53: the bag-create command string. -/
def create_command (bag : Job) : String :=
  "apt-cmd bag create" ++ profile_full ++ manifest_algs ++ output_file
    ++ bag_name bag.source_dir ++ ".tar" ++ bag_dir bag ++ source_organization
    ++ title bag ++ access bag ++ storage_option

/-- Line 60: the bag-validate command string. -/
def validate_command (bag : Job) : String :=
  "apt-cmd bag validate -p " ++ profile ++ " " ++ output_dir ++ "/"
    ++ bag_name bag.source_dir ++ ".tar"

/-- Line 68: the s3-upload command string. -/
def upload_command (bag : Job) : String :=
  "apt-cmd s3 upload --host=s3.amazonaws.com --bucket=\"" ++ bucket_name
    ++ "\" " ++ output_dir ++ "/" ++ bag_name bag.source_dir ++ ".tar"

/-- An observable event of a run: an environment-variable assignment, a
subprocess invocation, or a printed line. -/
inductive Event where
  | setEnv (key value : String)
  | invoke (cmd : String)
  | print (line : String)
  deriving DecidableEq, Repr

/-- One iteration of the job loop (lines 46-75): the events it produces, in
order, and the updated subprocess-invocation counter.  `rc n` is the return
code of the n-th subprocess call of the whole run; a non-zero validate
return code prints the error line and continues to the next job, skipping
the upload step and the final summary line. -/
def runJob (bag : Job) (rc : Nat → Int) (k : Nat) : List Event × Nat :=
  let bn := bag_name bag.source_dir
  let createEvents := [Event.invoke (create_command bag),
    Event.print (if rc k ≠ 0 then "ERROR CREATING: " ++ bn else "Bagged: " ++ bn)]
  let validateEvents := [Event.invoke (validate_command bag),
    Event.print (if rc (k+1) ≠ 0 then "ERROR VALIDATING: " ++ bn else "Validated: " ++ bn)]
  if rc (k+1) ≠ 0 then
    (createEvents ++ validateEvents, k + 2)
  else
    (createEvents ++ validateEvents ++
      [Event.invoke (upload_command bag),
       Event.print (if rc (k+2) ≠ 0 then "ERROR UPLOADING: " ++ bn else "Uploaded: " ++ bn),
       Event.print ("Bagged, Validated, Uploaded: " ++ bn)], k + 3)

/-- The job loop (line 46): process the jobs in order, threading the
subprocess-invocation counter. -/
def runJobs (rc : Nat → Int) : List Job → Nat → List Event
  | [], _ => []
  | bag :: rest, k =>
    let step := runJob bag rc k
    step.1 ++ runJobs rc rest step.2

/-- The whole script body (lines 43-75): set the two credential environment
variables, then run the job loop. -/
def runScript (rc : Nat → Int) : List Event :=
  Event.setEnv "APTRUST_AWS_KEY" aws_access_key ::
  Event.setEnv "APTRUST_AWS_SECRET" aws_secret_key ::
  runJobs rc jobs 0

/-- The lines a trace prints, in order. -/
def printedLines (trace : List Event) : List String :=
  trace.filterMap (fun e => match e with
    | Event.print l => some l
    | _ => none)

/-- The commands a trace invokes, in order. -/
def invokedCmds (trace : List Event) : List String :=
  trace.filterMap (fun e => match e with
    | Event.invoke c => some c
    | _ => none)

/-- How many environment-variable assignments a trace contains. -/
def countSetEnv (trace : List Event) : Nat :=
  (trace.filter (fun e => match e with
    | Event.setEnv _ _ => true
    | _ => false)).length

/-- Number of start positions at which `needle` occurs in `hay`. -/
def countOccs : List Char → List Char → Nat
  | [], needle => if needle.isEmpty then 1 else 0
  | h :: t, needle => (if needle.isPrefixOf (h :: t) then 1 else 0) + countOccs t needle

/-- The characters right after the first occurrence of `needle` in `hay`,
if `needle` occurs at all. -/
def afterFirstOcc : List Char → List Char → Option (List Char)
  | [], needle => if needle.isEmpty then some [] else none
  | h :: t, needle =>
    if needle.isPrefixOf (h :: t) then some ((h :: t).drop needle.length)
    else afterFirstOcc t needle

/-- The value of the first occurrence of `flag` in `cmd`: the characters
right after the flag text, up to the next space. -/
def flagValue (cmd flag : String) : Option String :=
  match afterFirstOcc cmd.data flag.data with
  | some rest => some ⟨rest.takeWhile (fun c => c ≠ ' ')⟩
  | none => none

/-- The spec's description of the derived bag name: the last path segment of
`source_dir`, the substring after the final slash. -/
def lastSegmentSpec (s : String) : String :=
  ⟨(s.data.reverse.takeWhile (fun c => c ≠ '/')).reverse⟩

/-- The tar file path `output_dir ++ "/" ++ bag_name ++ ".tar"` that all
three commands of a job refer to. -/
def tar_path (bag : Job) : String :=
  output_dir ++ "/" ++ bag_name bag.source_dir ++ ".tar"


/-! ## Helper lemmas -/

/-- Two character-list appends differ when their left parts differ at an
index inside both. -/
theorem append_ne_of_get_ne (a b r s : List Char) (i : Nat) (x y : Char)
    (hx : a[i]? = some x) (hy : b[i]? = some y) (hxy : x ≠ y) :
    a ++ r ≠ b ++ s := by
  intro h
  have ha : i < a.length := by
    rcases List.getElem?_eq_some_iff.mp hx with ⟨ha, -⟩
    exact ha
  have hb : i < b.length := by
    rcases List.getElem?_eq_some_iff.mp hy with ⟨hb, -⟩
    exact hb
  have h1 : (a ++ r)[i]? = some x := by rw [List.getElem?_append_left ha]; exact hx
  have h2 : (b ++ s)[i]? = some y := by rw [List.getElem?_append_left hb]; exact hy
  rw [h, h2] at h1
  exact hxy (Option.some.inj h1).symm

/-- The upload command of a job is never the same string as its create
command (they differ at character 8: "s3" vs "bag"). -/
theorem upload_ne_create (bag : Job) : upload_command bag ≠ create_command bag := by
  intro h
  have hd : (upload_command bag).data = (create_command bag).data := by rw [h]
  simp only [upload_command, create_command, String.data_append, List.append_assoc] at hd
  exact append_ne_of_get_ne _ _ _ _ 8 's' 'b' (by decide) (by decide) (by decide) hd

/-- The upload command of a job is never the same string as its validate
command. -/
theorem upload_ne_validate (bag : Job) : upload_command bag ≠ validate_command bag := by
  intro h
  have hd : (upload_command bag).data = (validate_command bag).data := by rw [h]
  simp only [upload_command, validate_command, String.data_append, List.append_assoc] at hd
  exact append_ne_of_get_ne _ _ _ _ 8 's' 'b' (by decide) (by decide) (by decide) hd

/-- Every job iteration invokes its create command. -/
theorem runJob_mem_create (bag : Job) (rc : Nat → Int) (k : Nat) :
    Event.invoke (create_command bag) ∈ (runJob bag rc k).1 := by
  by_cases hv : rc (k + 1) ≠ 0 <;> simp [runJob, hv]

/-- Every job iteration invokes its validate command. -/
theorem runJob_mem_validate (bag : Job) (rc : Nat → Int) (k : Nat) :
    Event.invoke (validate_command bag) ∈ (runJob bag rc k).1 := by
  by_cases hv : rc (k + 1) ≠ 0 <;> simp [runJob, hv]

/-- The loop invokes the create and validate commands of every job of its
list, whatever the return codes are. -/
theorem runJobs_mem (rc : Nat → Int) :
    ∀ (bags : List Job) (k : Nat) (bag : Job), bag ∈ bags →
      Event.invoke (create_command bag) ∈ runJobs rc bags k ∧
      Event.invoke (validate_command bag) ∈ runJobs rc bags k := by
  intro bags
  induction bags with
  | nil => intro k bag h; exact absurd h (List.not_mem_nil bag)
  | cons hd tl ih =>
    intro k bag h
    rcases List.mem_cons.mp h with rfl | h
    · exact ⟨List.mem_append_left _ (runJob_mem_create bag rc k),
        List.mem_append_left _ (runJob_mem_validate bag rc k)⟩
    · have := ih (runJob hd rc k).2 bag h
      exact ⟨List.mem_append_right _ this.1, List.mem_append_right _ this.2⟩

/-- invokedCmds distributes over trace concatenation. -/
theorem invokedCmds_append (a b : List Event) :
    invokedCmds (a ++ b) = invokedCmds a ++ invokedCmds b := by
  simp [invokedCmds]

/-- A job iteration invokes two or three subprocesses. -/
theorem runJob_invoked_bounds (bag : Job) (rc : Nat → Int) (k : Nat) :
    2 ≤ (invokedCmds (runJob bag rc k).1).length ∧
    (invokedCmds (runJob bag rc k).1).length ≤ 3 := by
  by_cases hv : rc (k + 1) ≠ 0 <;> simp [runJob, invokedCmds, hv]

/-- The loop makes between two and three subprocess calls per job. -/
theorem runJobs_invoked_bounds (rc : Nat → Int) :
    ∀ (bags : List Job) (k : Nat),
      2 * bags.length ≤ (invokedCmds (runJobs rc bags k)).length ∧
      (invokedCmds (runJobs rc bags k)).length ≤ 3 * bags.length := by
  intro bags
  induction bags with
  | nil => intro k; simp [runJobs, invokedCmds]
  | cons hd tl ih =>
    intro k
    rw [runJobs, invokedCmds_append]
    have h1 := runJob_invoked_bounds hd rc k
    have h2 := ih (runJob hd rc k).2
    simp only [List.length_append, List.length_cons]
    omega

/-- countSetEnv distributes over trace concatenation. -/
theorem countSetEnv_append (a b : List Event) :
    countSetEnv (a ++ b) = countSetEnv a + countSetEnv b := by
  simp [countSetEnv]

/-- A job iteration assigns no environment variable. -/
theorem runJob_countSetEnv (bag : Job) (rc : Nat → Int) (k : Nat) :
    countSetEnv (runJob bag rc k).1 = 0 := by
  by_cases hv : rc (k + 1) ≠ 0 <;> simp [runJob, countSetEnv, hv]

/-- The loop assigns no environment variable. -/
theorem runJobs_countSetEnv (rc : Nat → Int) :
    ∀ (bags : List Job) (k : Nat), countSetEnv (runJobs rc bags k) = 0 := by
  intro bags
  induction bags with
  | nil => intro k; simp [runJobs, countSetEnv]
  | cons hd tl ih =>
    intro k
    rw [runJobs, countSetEnv_append, runJob_countSetEnv, ih]

/-- A job iteration only looks at the return codes of its own (at most
three) subprocess calls. -/
theorem runJob_congr (bag : Job) (rc1 rc2 : Nat → Int) (k : Nat)
    (h : ∀ n, k ≤ n → n < k + 3 → rc1 n = rc2 n) :
    runJob bag rc1 k = runJob bag rc2 k := by
  have e0 : rc1 k = rc2 k := h k le_rfl (by omega)
  have e1 : rc1 (k + 1) = rc2 (k + 1) := h (k + 1) (by omega) (by omega)
  have e2 : rc1 (k + 2) = rc2 (k + 2) := h (k + 2) (by omega) (by omega)
  simp only [runJob, e0, e1, e2]

/-- The invocation counter advances by two or three per job. -/
theorem runJob_counter_bounds (bag : Job) (rc : Nat → Int) (k : Nat) :
    k + 2 ≤ (runJob bag rc k).2 ∧ (runJob bag rc k).2 ≤ k + 3 := by
  by_cases hv : rc (k + 1) ≠ 0 <;> simp [runJob, hv]

/-- The loop only looks at the return codes of the at most `3 * bags.length`
subprocess calls it makes. -/
theorem runJobs_congr (rc1 rc2 : Nat → Int) :
    ∀ (bags : List Job) (k : Nat),
      (∀ n, k ≤ n → n < k + 3 * bags.length → rc1 n = rc2 n) →
      runJobs rc1 bags k = runJobs rc2 bags k := by
  intro bags
  induction bags with
  | nil => intro k _; rfl
  | cons hd tl ih =>
    intro k h
    have hhd : runJob hd rc1 k = runJob hd rc2 k := by
      refine runJob_congr hd rc1 rc2 k ?_
      intro n h1 h2
      exact h n h1 (by simp only [List.length_cons]; omega)
    have hb := runJob_counter_bounds hd rc2 k
    rw [runJobs, runJobs, hhd]
    congr 1
    refine ih (runJob hd rc2 k).2 ?_
    intro n h1 h2
    refine h n (by omega) ?_
    simp only [List.length_cons]
    omega

/-! ## Claims -/

/-- C1: for every job whose validate subprocess returns 0, the job trace ends
with the upload invocation, an upload status line ("ERROR UPLOADING" exactly
when upload returns non-zero), and then, unconditionally, the final
"Bagged, Validated, Uploaded" line. -/
theorem final_summary_printed_regardless_of_upload (bag : Job) (rc : Nat → Int) (k : Nat)
    (hv : rc (k+1) = 0) :
    (runJob bag rc k).1 =
      [Event.invoke (create_command bag),
       Event.print (if rc k ≠ 0 then "ERROR CREATING: " ++ bag_name bag.source_dir
         else "Bagged: " ++ bag_name bag.source_dir),
       Event.invoke (validate_command bag),
       Event.print ("Validated: " ++ bag_name bag.source_dir),
       Event.invoke (upload_command bag),
       Event.print (if rc (k+2) ≠ 0 then "ERROR UPLOADING: " ++ bag_name bag.source_dir
         else "Uploaded: " ++ bag_name bag.source_dir),
       Event.print ("Bagged, Validated, Uploaded: " ++ bag_name bag.source_dir)] := by
  simp [runJob, hv]

set_option maxRecDepth 100000 in
/-- C1 witness: a concrete job whose create and validate succeed and whose
upload fails still prints the final summary line after the ERROR UPLOADING
line. -/
theorem final_summary_printed_regardless_of_upload_witness :
    (runJob ⟨"/a/b/test_bag_1", "Bag 1", "Institution"⟩ (fun n => if n = 2 then 1 else 0) 0).1 =
      [Event.invoke (create_command ⟨"/a/b/test_bag_1", "Bag 1", "Institution"⟩),
       Event.print "Bagged: test_bag_1",
       Event.invoke (validate_command ⟨"/a/b/test_bag_1", "Bag 1", "Institution"⟩),
       Event.print "Validated: test_bag_1",
       Event.invoke (upload_command ⟨"/a/b/test_bag_1", "Bag 1", "Institution"⟩),
       Event.print "ERROR UPLOADING: test_bag_1",
       Event.print "Bagged, Validated, Uploaded: test_bag_1"] :=
  (final_summary_printed_regardless_of_upload ⟨"/a/b/test_bag_1", "Bag 1", "Institution"⟩
    (fun n => if n = 2 then 1 else 0) 0 rfl).trans (by decide)

/-- C2: for every job whose validate subprocess returns non-zero, the job
trace is exactly create invocation, create status line, validate invocation
and the "ERROR VALIDATING" line; the upload command is not invoked, and the
loop continues with the rest of the job list. -/
theorem validate_failure_skips_upload_and_continues (bag : Job) (rest : List Job)
    (rc : Nat → Int) (k : Nat) (hv : rc (k+1) ≠ 0) :
    (runJob bag rc k).1 =
      [Event.invoke (create_command bag),
       Event.print (if rc k ≠ 0 then "ERROR CREATING: " ++ bag_name bag.source_dir
         else "Bagged: " ++ bag_name bag.source_dir),
       Event.invoke (validate_command bag),
       Event.print ("ERROR VALIDATING: " ++ bag_name bag.source_dir)] ∧
    Event.invoke (upload_command bag) ∉ (runJob bag rc k).1 ∧
    runJobs rc (bag :: rest) k = (runJob bag rc k).1 ++ runJobs rc rest (k + 2) := by
  have htr : (runJob bag rc k).1 =
      [Event.invoke (create_command bag),
       Event.print (if rc k ≠ 0 then "ERROR CREATING: " ++ bag_name bag.source_dir
         else "Bagged: " ++ bag_name bag.source_dir),
       Event.invoke (validate_command bag),
       Event.print ("ERROR VALIDATING: " ++ bag_name bag.source_dir)] := by
    simp [runJob, hv]
  refine ⟨htr, ?_, ?_⟩
  · rw [htr]
    intro hmem
    simp only [List.mem_cons, List.not_mem_nil, or_false] at hmem
    rcases hmem with h | h | h | h
    · exact upload_ne_create bag (Event.invoke.inj h)
    · simp at h
    · exact upload_ne_validate bag (Event.invoke.inj h)
    · simp at h
  · have hk : (runJob bag rc k).2 = k + 2 := by simp [runJob, hv]
    rw [runJobs, hk]

set_option maxRecDepth 100000 in
/-- C2 witness: a concrete job whose validate fails prints ERROR VALIDATING,
invokes no upload, and the loop goes on to the rest of the list. -/
theorem validate_failure_skips_upload_and_continues_witness :
    (runJob ⟨"/a/b/test_bag_1", "Bag 1", "Institution"⟩ (fun _ => 1) 0).1 =
      [Event.invoke (create_command ⟨"/a/b/test_bag_1", "Bag 1", "Institution"⟩),
       Event.print (if (1 : Int) ≠ 0 then "ERROR CREATING: " ++ bag_name "/a/b/test_bag_1"
         else "Bagged: " ++ bag_name "/a/b/test_bag_1"),
       Event.invoke (validate_command ⟨"/a/b/test_bag_1", "Bag 1", "Institution"⟩),
       Event.print ("ERROR VALIDATING: " ++ bag_name "/a/b/test_bag_1")] ∧
    Event.invoke (upload_command ⟨"/a/b/test_bag_1", "Bag 1", "Institution"⟩) ∉
      (runJob ⟨"/a/b/test_bag_1", "Bag 1", "Institution"⟩ (fun _ => 1) 0).1 ∧
    runJobs (fun _ => 1) [⟨"/a/b/test_bag_1", "Bag 1", "Institution"⟩] 0 =
      (runJob ⟨"/a/b/test_bag_1", "Bag 1", "Institution"⟩ (fun _ => 1) 0).1 ++
        runJobs (fun _ => 1) [] 2 :=
  validate_failure_skips_upload_and_continues
    ⟨"/a/b/test_bag_1", "Bag 1", "Institution"⟩ [] (fun _ => 1) 0 (by decide)

/-- C3: for every job whose create subprocess returns non-zero, the "ERROR
CREATING" line is printed and the validate command is still invoked. -/
theorem create_failure_still_validates (bag : Job) (rc : Nat → Int) (k : Nat)
    (hc : rc k ≠ 0) :
    Event.print ("ERROR CREATING: " ++ bag_name bag.source_dir) ∈ (runJob bag rc k).1 ∧
    Event.invoke (validate_command bag) ∈ (runJob bag rc k).1 := by
  by_cases hv : rc (k+1) ≠ 0 <;> simp [runJob, hc, hv]

/-- C3 witness: a concrete job whose every subprocess fails prints ERROR
CREATING and still invokes validate. -/
theorem create_failure_still_validates_witness :
    Event.print ("ERROR CREATING: " ++ bag_name "/a/b/test_bag_1") ∈
      (runJob ⟨"/a/b/test_bag_1", "Bag 1", "Institution"⟩ (fun _ => 1) 0).1 ∧
    Event.invoke (validate_command ⟨"/a/b/test_bag_1", "Bag 1", "Institution"⟩) ∈
      (runJob ⟨"/a/b/test_bag_1", "Bag 1", "Institution"⟩ (fun _ => 1) 0).1 :=
  create_failure_still_validates ⟨"/a/b/test_bag_1", "Bag 1", "Institution"⟩
    (fun _ => 1) 0 (by decide)

/-- C4: for every job of the script, the derived bag name is the last path
segment of its source directory. -/
theorem bag_name_is_last_path_segment (bag : Job) (h : bag ∈ jobs) :
    bag_name bag.source_dir = lastSegmentSpec bag.source_dir := by
  fin_cases h <;> decide

/-- C4 witness: the first job derives the last path segment. -/
theorem bag_name_is_last_path_segment_witness :
    bag_name "/home/emory/aptrust/testing_files/testing_input/test_bag_1" =
      lastSegmentSpec "/home/emory/aptrust/testing_files/testing_input/test_bag_1" :=
  bag_name_is_last_path_segment
    ⟨"/home/emory/aptrust/testing_files/testing_input/test_bag_1", "Bag 1", "Institution"⟩
    (by decide)

set_option maxRecDepth 100000 in
/-- C5: for every job of the script, the create command contains exactly one
bag-dir flag, its value is the job's source directory, and the command
contains exactly one tag flag each for Source-Organization, Title, Access
and Storage-Option, carrying the configured values. -/
theorem create_command_flags (bag : Job) (h : bag ∈ jobs) :
    countOccs (create_command bag).data ("--bag-dir=").data = 1 ∧
    flagValue (create_command bag) "--bag-dir=" = some bag.source_dir ∧
    countOccs (create_command bag).data
      ("--tags='bag-info.txt/Source-Organization=" ++ source_organization_cfg ++ "'").data = 1 ∧
    countOccs (create_command bag).data
      ("--tags='aptrust-info.txt/Title=" ++ bag.title_val ++ "'").data = 1 ∧
    countOccs (create_command bag).data
      ("--tags='aptrust-info.txt/Access=" ++ bag.access_val ++ "'").data = 1 ∧
    countOccs (create_command bag).data
      ("--tags='aptrust-info.txt/Storage-Option=" ++ storage_option_cfg ++ "'").data = 1 := by
  fin_cases h <;> exact ⟨by decide, by decide, by decide, by decide, by decide, by decide⟩

set_option maxRecDepth 100000 in
/-- C5 witness: the flags of the first job's create command. -/
theorem create_command_flags_witness :
    countOccs (create_command ⟨"/home/emory/aptrust/testing_files/testing_input/test_bag_1",
        "Bag 1", "Institution"⟩).data ("--bag-dir=").data = 1 ∧
    flagValue (create_command ⟨"/home/emory/aptrust/testing_files/testing_input/test_bag_1",
        "Bag 1", "Institution"⟩) "--bag-dir=" =
      some "/home/emory/aptrust/testing_files/testing_input/test_bag_1" ∧
    countOccs (create_command ⟨"/home/emory/aptrust/testing_files/testing_input/test_bag_1",
        "Bag 1", "Institution"⟩).data
      ("--tags='bag-info.txt/Source-Organization=" ++ source_organization_cfg ++ "'").data = 1 ∧
    countOccs (create_command ⟨"/home/emory/aptrust/testing_files/testing_input/test_bag_1",
        "Bag 1", "Institution"⟩).data
      ("--tags='aptrust-info.txt/Title=" ++ "Bag 1" ++ "'").data = 1 ∧
    countOccs (create_command ⟨"/home/emory/aptrust/testing_files/testing_input/test_bag_1",
        "Bag 1", "Institution"⟩).data
      ("--tags='aptrust-info.txt/Access=" ++ "Institution" ++ "'").data = 1 ∧
    countOccs (create_command ⟨"/home/emory/aptrust/testing_files/testing_input/test_bag_1",
        "Bag 1", "Institution"⟩).data
      ("--tags='aptrust-info.txt/Storage-Option=" ++ storage_option_cfg ++ "'").data = 1 :=
  create_command_flags
    ⟨"/home/emory/aptrust/testing_files/testing_input/test_bag_1", "Bag 1", "Institution"⟩
    (by decide)

set_option maxRecDepth 100000 in
/-- C6 counterexample: a fully successful job runs three steps but prints
four lines, the fourth being the per-job summary line, so the output is not
exactly one line per executed step. -/
theorem one_line_per_step_counterexample :
    printedLines (runJob ⟨"/home/emory/aptrust/testing_files/testing_input/test_bag_1",
        "Bag 1", "Institution"⟩ (fun _ => 0) 0).1 =
      ["Bagged: test_bag_1", "Validated: test_bag_1", "Uploaded: test_bag_1",
       "Bagged, Validated, Uploaded: test_bag_1"] ∧
    (printedLines (runJob ⟨"/home/emory/aptrust/testing_files/testing_input/test_bag_1",
        "Bag 1", "Institution"⟩ (fun _ => 0) 0).1).length =
      (invokedCmds (runJob ⟨"/home/emory/aptrust/testing_files/testing_input/test_bag_1",
        "Bag 1", "Institution"⟩ (fun _ => 0) 0).1).length + 1 := by
  decide

/-- C6 amended: every executed step prints exactly one status line, and
exactly one additional per-job summary line is printed when (and only when)
the validate subprocess returns 0. -/
theorem one_line_per_step_plus_summary (bag : Job) (rc : Nat → Int) (k : Nat) :
    (runJob bag rc k).1 =
      (if rc (k+1) ≠ 0 then
        [Event.invoke (create_command bag),
         Event.print (if rc k ≠ 0 then "ERROR CREATING: " ++ bag_name bag.source_dir
           else "Bagged: " ++ bag_name bag.source_dir),
         Event.invoke (validate_command bag),
         Event.print ("ERROR VALIDATING: " ++ bag_name bag.source_dir)]
      else
        [Event.invoke (create_command bag),
         Event.print (if rc k ≠ 0 then "ERROR CREATING: " ++ bag_name bag.source_dir
           else "Bagged: " ++ bag_name bag.source_dir),
         Event.invoke (validate_command bag),
         Event.print ("Validated: " ++ bag_name bag.source_dir),
         Event.invoke (upload_command bag),
         Event.print (if rc (k+2) ≠ 0 then "ERROR UPLOADING: " ++ bag_name bag.source_dir
           else "Uploaded: " ++ bag_name bag.source_dir),
         Event.print ("Bagged, Validated, Uploaded: " ++ bag_name bag.source_dir)]) ∧
    (printedLines (runJob bag rc k).1).length =
      (invokedCmds (runJob bag rc k).1).length + (if rc (k+1) = 0 then 1 else 0) := by
  constructor
  · by_cases hv : rc (k + 1) ≠ 0 <;> simp [runJob, hv]
  · by_cases hv : rc (k + 1) = 0 <;> simp [runJob, printedLines, invokedCmds, hv]

/-- C7: for every return-code oracle, the script invokes the create and
validate commands of every job of its list, and makes between two and three
subprocess calls per job, so every job is processed and none is retried. -/
theorem all_jobs_processed (rc : Nat → Int) (bag : Job) (h : bag ∈ jobs) :
    Event.invoke (create_command bag) ∈ runScript rc ∧
    Event.invoke (validate_command bag) ∈ runScript rc ∧
    2 * jobs.length ≤ (invokedCmds (runScript rc)).length ∧
    (invokedCmds (runScript rc)).length ≤ 3 * jobs.length := by
  have hm := runJobs_mem rc jobs 0 bag h
  have hb := runJobs_invoked_bounds rc jobs 0
  have hscript : runScript rc =
      Event.setEnv "APTRUST_AWS_KEY" aws_access_key ::
      Event.setEnv "APTRUST_AWS_SECRET" aws_secret_key :: runJobs rc jobs 0 := rfl
  rw [hscript]
  refine ⟨List.mem_cons_of_mem _ (List.mem_cons_of_mem _ hm.1),
    List.mem_cons_of_mem _ (List.mem_cons_of_mem _ hm.2), ?_, ?_⟩
  · simp only [invokedCmds, List.filterMap_cons]
    simpa [invokedCmds] using hb.1
  · simp only [invokedCmds, List.filterMap_cons]
    simpa [invokedCmds] using hb.2

/-- C7 witness: with every subprocess succeeding, the first job's create and
validate commands are invoked and the total invocation count is in range. -/
theorem all_jobs_processed_witness :
    Event.invoke (create_command ⟨"/home/emory/aptrust/testing_files/testing_input/test_bag_1",
      "Bag 1", "Institution"⟩) ∈ runScript (fun _ => 0) ∧
    Event.invoke (validate_command ⟨"/home/emory/aptrust/testing_files/testing_input/test_bag_1",
      "Bag 1", "Institution"⟩) ∈ runScript (fun _ => 0) ∧
    2 * jobs.length ≤ (invokedCmds (runScript (fun _ => 0))).length ∧
    (invokedCmds (runScript (fun _ => 0))).length ≤ 3 * jobs.length :=
  all_jobs_processed (fun _ => 0)
    ⟨"/home/emory/aptrust/testing_files/testing_input/test_bag_1", "Bag 1", "Institution"⟩
    (by decide)

/-- C8: for every return-code oracle, the script's trace starts with the two
credential environment assignments, and the rest of the trace (the whole job
loop) contains no environment assignment, so every subprocess call happens
after both assignments and sees the configured values. -/
theorem env_set_once_before_subprocesses (rc : Nat → Int) :
    runScript rc =
      Event.setEnv "APTRUST_AWS_KEY" aws_access_key ::
      Event.setEnv "APTRUST_AWS_SECRET" aws_secret_key ::
      runJobs rc jobs 0 ∧
    countSetEnv (runJobs rc jobs 0) = 0 :=
  ⟨rfl, runJobs_countSetEnv rc jobs 0⟩

/-- C9: for every job, the validate command and the upload command name the
same tar path, the concatenation of the output directory, a slash, the
derived bag name and ".tar", and the create command's output-file flag
designates the same path. -/
theorem tar_path_consistent (bag : Job) :
    validate_command bag = ("apt-cmd bag validate -p " ++ profile ++ " ") ++ tar_path bag ∧
    upload_command bag =
      ("apt-cmd s3 upload --host=s3.amazonaws.com --bucket=\"" ++ bucket_name ++ "\" ")
        ++ tar_path bag ∧
    create_command bag =
      ("apt-cmd bag create" ++ profile_full ++ manifest_algs ++ " --output-file=")
        ++ tar_path bag
        ++ (bag_dir bag ++ source_organization ++ title bag ++ access bag ++ storage_option) := by
  refine ⟨?_, ?_, ?_⟩ <;>
    simp [validate_command, upload_command, create_command, tar_path, output_file,
      String.append_assoc]

/-- C10: the printed output is a deterministic function of the return-code
sequence: two runs whose oracles agree on the at most `3 * jobs.length`
subprocess calls the script can make produce identical traces. -/
theorem output_deterministic_in_return_codes (rc1 rc2 : Nat → Int)
    (h : ∀ n, n < 3 * jobs.length → rc1 n = rc2 n) :
    runScript rc1 = runScript rc2 := by
  unfold runScript
  rw [runJobs_congr rc1 rc2 jobs 0 (fun n _ h2 => h n (by omega))]

/-- C10 witness: two different oracles that agree on the first nine calls
give the same trace. -/
theorem output_deterministic_in_return_codes_witness :
    runScript (fun _ => 0) = runScript (fun n => if 9 ≤ n then 1 else 0) :=
  output_deterministic_in_return_codes (fun _ => 0) (fun n => if 9 ≤ n then 1 else 0)
    (by decide)

end BagValidateUpload
